import Mathlib

/-! Verification of the session-aware request-dispatch core of `ruma-client`
(`src/lib.rs`): a shallow embedding of the session store, the `Client`
handle, `Client::request`, the convenience operations (`log_in`,
`register_guest`, `register_user`) and the `Client::sync` stream, with
theorems about authentication checking, credential injection, session
persistence and cursor threading. -/

/-- `Session` (module `session`, re-exported from `lib.rs`): the access
token, device id and user id obtained from login or registration. -/
structure Session where
  access_token : String
  device_id : String
  user_id : String
deriving DecidableEq

/-- The heap of `ClientData` allocations: each `Arc<ClientData>` pointer id
is mapped to the current content of its `session: Mutex<Option<Session>>`
field.  Sharing an `Arc` between clones is modelled by sharing the id. -/
abbrev World : Type := Nat → Option Session

/-- Reading a session store slot (a `data.session.lock()` read). -/
def getStore (w : World) (id : Nat) : Option Session := w id

/-- Writing a session store slot (`*data.session.lock().unwrap() = v`). -/
def setStore (w : World) (id : Nat) (v : Option Session) : World :=
  fun i => if i = id then v else w i

/-- A URL (`url::Url`): the origin (scheme, host, port — opaque here), the
path, and the query modelled as its list of `query_pairs`. -/
structure Url where
  origin : String
  path : String
  query : List (String × String)
deriving DecidableEq

/-- The `Client<C>` handle from `lib.rs`: an `Arc<ClientData<C>>`.  The
immutable `homeserver_url` is kept inline; the mutable session slot lives in
the `World` at `storeId` (the `Arc` pointer identity). -/
structure Client where
  homeserver_url : Url
  storeId : Nat
deriving DecidableEq

/-- `impl Clone for Client`: `Self(self.0.clone())` — an `Arc` clone, which
shares the pointee (same store id), never copying the store. -/
def Client.clone (c : Client) : Client :=
  { homeserver_url := c.homeserver_url, storeId := c.storeId }

/-- `Client::session`: clone of the current `Option<Session>` in the store. -/
def Client.session (w : World) (c : Client) : Option Session :=
  getStore w c.storeId

/-- Modelled from the spec: the error kinds of the missing `error` module
(spec section 7).  `authenticationRequired` is `InnerError::AuthenticationRequired`
used in `lib.rs`; the other four carry their underlying message opaquely. -/
inductive Error where
  | authenticationRequired
  | requestConstruction (msg : String)
  | urlConstruction (msg : String)
  | transport (msg : String)
  | responseDecoding (msg : String)
deriving DecidableEq

/-- The transport-level request produced by `request.try_into()`: the path
and query of its URI (query as pairs), and the body. -/
structure WireRequest where
  path : String
  query : List (String × String)
  body : String
deriving DecidableEq

/-- `ruma_api::Endpoint::METADATA`, restricted to the field `lib.rs` reads. -/
structure EndpointMeta where
  requires_authentication : Bool
deriving DecidableEq

/-- Steps 2–3 of `Client::request`: overlay the wire request path and query
onto the homeserver URL (`url.set_path`, `url.set_query`) and, when the
endpoint requires authentication, read the session store and append the
`("access_token", token)` query pair (`query_pairs_mut().append_pair`),
failing with `AuthenticationRequired` when the store is empty. -/
def resolveUrl (requires_authentication : Bool) (homeserver : Url)
    (session : Option Session) (w : WireRequest) : Except Error Url :=
  let url : Url := { origin := homeserver.origin, path := w.path, query := w.query }
  if requires_authentication then
    match session with
    | some s => .ok { url with query := url.query ++ [("access_token", s.access_token)] }
    | none => .error Error.authenticationRequired
  else
    .ok url

/-- Observable outcome of one `Client::request` call: the result, how many
times the transport (`data2.hyper.request`) was invoked, and the URL it was
invoked with, if it was. -/
structure DispatchOutcome (Resp : Type) where
  result : Except Error Resp
  networkCalls : Nat
  sentUrl : Option Url

/-- `Client::request::<E>`: convert the typed request (`try_into`), resolve
the URL and the authentication credential (`resolveUrl`), re-validate the
URL (`Uri::from_str`, modelled as a validator returning an error message on
a malformed URL), execute the transport call, decode the typed response.
The session argument is the single `data1.session.lock()` read. -/
def request {Req TResp Resp : Type} (meta : EndpointMeta) (homeserver : Url)
    (session : Option Session)
    (tryInto : Req → Except Error WireRequest)
    (validateUri : Url → Option String)
    (transport : Url → WireRequest → Except String TResp)
    (decode : TResp → Except Error Resp)
    (req : Req) : DispatchOutcome Resp :=
  match tryInto req with
  | .error e => ⟨.error e, 0, none⟩
  | .ok w =>
    match resolveUrl meta.requires_authentication homeserver session w with
    | .error e => ⟨.error e, 0, none⟩
    | .ok url =>
      match validateUri url with
      | some msg => ⟨.error (Error.urlConstruction msg), 0, none⟩
      | none =>
        match transport url w with
        | .error msg => ⟨.error (Error.transport msg), 1, some url⟩
        | .ok tresp =>
          match decode tresp with
          | .error e => ⟨.error e, 1, some url⟩
          | .ok resp => ⟨.ok resp, 1, some url⟩

/-- `Client::request` at the level of the store heap: the session is read
from the client's slot and the heap is returned as the call leaves it
(`request` contains no assignment to `data.session`). -/
def requestW {Req TResp Resp : Type} (world : World) (c : Client)
    (meta : EndpointMeta)
    (tryInto : Req → Except Error WireRequest)
    (validateUri : Url → Option String)
    (transport : Url → WireRequest → Except String TResp)
    (decode : TResp → Except Error Resp)
    (req : Req) : DispatchOutcome Resp × World :=
  (request meta c.homeserver_url (getStore world c.storeId)
    tryInto validateUri transport decode req, world)

/-- `api::r0::session::login::Response` restricted to the fields read by
`Client::log_in`. -/
structure LoginResponse where
  access_token : String
  device_id : String
  user_id : String
deriving DecidableEq

/-- `api::r0::account::register::Response` restricted to the fields read by
`Client::register_guest` and `Client::register_user`. -/
structure RegisterResponse where
  access_token : String
  device_id : String
  user_id : String
deriving DecidableEq

/-- `Client::log_in`, from the point where the `login::call` future
resolves (`call` is the dispatched endpoint call, whose outcome is the
argument): on success build a `Session` from the response fields, store it
(`*data.session.lock().unwrap() = Some(session.clone())`) and return it; an
error passes through the `.map` untouched. -/
def log_in (w : World) (storeId : Nat)
    (call : Except Error LoginResponse) : Except Error Session × World :=
  match call with
  | .ok response =>
    let session : Session :=
      { access_token := response.access_token
        device_id := response.device_id
        user_id := response.user_id }
    (.ok session, setStore w storeId (some session))
  | .error e => (.error e, w)

/-- `Client::register_guest`, from the point where the `register::call`
future resolves: same session construction and store write as `log_in`. -/
def register_guest (w : World) (storeId : Nat)
    (call : Except Error RegisterResponse) : Except Error Session × World :=
  match call with
  | .ok response =>
    let session : Session :=
      { access_token := response.access_token
        device_id := response.device_id
        user_id := response.user_id }
    (.ok session, setStore w storeId (some session))
  | .error e => (.error e, w)

/-- `Client::register_user`, from the point where the `register::call`
future resolves: same session construction and store write as `log_in`. -/
def register_user (w : World) (storeId : Nat)
    (call : Except Error RegisterResponse) : Except Error Session × World :=
  match call with
  | .ok response =>
    let session : Session :=
      { access_token := response.access_token
        device_id := response.device_id
        user_id := response.user_id }
    (.ok session, setStore w storeId (some session))
  | .error e => (.error e, w)

/-- `api::r0::sync::sync_events::SetPresence`, restricted to the variant
`lib.rs` constructs. -/
inductive SetPresence where
  | offline
deriving DecidableEq

/-- `api::r0::sync::sync_events::Response` restricted to the field read by
`Client::sync`. -/
structure SyncResponse where
  next_batch : String
deriving DecidableEq

/-- `api::r0::sync::sync_events::Request` as constructed in `Client::sync`;
the filter type is kept abstract. -/
structure SyncRequest (F : Type) where
  filter : Option F
  since : Option String
  full_state : Option Bool
  set_presence : Option SetPresence
  timeout : Option Nat
deriving DecidableEq

/-- The `set_presence` value computed once at the top of `Client::sync`:
`if set_presence { None } else { Some(SetPresence::Offline) }`. -/
def syncSetPresence (set_presence : Bool) : Option SetPresence :=
  if set_presence then none else some SetPresence.offline

/-- The `sync_events::Request` built inside the unfold closure of
`Client::sync`: `filter` cloned, `since` from the unfold state,
`full_state: None`, `set_presence` cloned from the precomputed value,
`timeout: None`. -/
def syncRequest {F : Type} (filter : Option F)
    (set_presence : Option SetPresence) (since : Option String) :
    SyncRequest F :=
  { filter := filter
    since := since
    full_state := none
    set_presence := set_presence
    timeout := none }

/-- The closure passed to `stream::unfold` in `Client::sync`: it always
returns `Some(...)` (the stream never ends on its own), wrapping the
dispatched call whose result is paired with `Some(next_batch)` as the next
unfold state. -/
def syncUnfoldStep {F : Type} (filter : Option F)
    (set_presence : Option SetPresence)
    (dispatch : SyncRequest F → Except Error SyncResponse)
    (since : Option String) :
    Option (Except Error (SyncResponse × Option String)) :=
  some ((dispatch (syncRequest filter set_presence since)).map
    (fun res => (res, some res.next_batch)))

/-- Unrolling of the `stream::unfold` state in `Client::sync` against a
scripted transport (`script n` is the outcome of the n-th dispatched call):
the `since` carried by the n-th request, `none` once the stream has ended
(a dispatch error ends a futures-0.1 unfold stream after yielding it). -/
def syncSinceAt (script : Nat → Except Error SyncResponse)
    (since0 : Option String) : Nat → Option (Option String)
  | 0 => some since0
  | n + 1 =>
    match syncSinceAt script since0 n with
    | none => none
    | some _ =>
      match script n with
      | .ok res => some (some res.next_batch)
      | .error _ => none

/-- The n-th request issued by the `Client::sync` stream against a scripted
transport, when the stream still issues one. -/
def syncRequestAt {F : Type} (filter : Option F) (set_presence : Bool)
    (script : Nat → Except Error SyncResponse) (since0 : Option String)
    (n : Nat) : Option (SyncRequest F) :=
  (syncSinceAt script since0 n).map
    (syncRequest filter (syncSetPresence set_presence))

/-- One item yielded by the `Client::sync` stream: a response, or the
dispatch error that ends the stream. -/
inductive SyncItem where
  | resp (r : SyncResponse)
  | err (e : Error)
deriving DecidableEq

/-- The n-th item yielded by the `Client::sync` stream against a scripted
transport, `none` once the stream has ended. -/
def syncItemAt (script : Nat → Except Error SyncResponse)
    (since0 : Option String) (n : Nat) : Option SyncItem :=
  match syncSinceAt script since0 n with
  | none => none
  | some _ =>
    match script n with
    | .ok res => some (SyncItem.resp res)
    | .error e => some (SyncItem.err e)

/-! Concrete inputs used to instantiate the theorems below. -/

/-- A scripted transport answering `next_batch` = t1, t2, t3, t3, … -/
def scriptT : Nat → Except Error SyncResponse
  | 0 => .ok { next_batch := "t1" }
  | 1 => .ok { next_batch := "t2" }
  | _ => .ok { next_batch := "t3" }

/-- A scripted transport that fails at once with a transport error. -/
def scriptE : Nat → Except Error SyncResponse :=
  fun _ => .error (Error.transport "connection refused")

/-- A sample dispatch function for the unfold closure. -/
def dispatchW : SyncRequest String → Except Error SyncResponse :=
  fun _ => .ok { next_batch := "t1" }

/-- A sample typed-request conversion that always succeeds. -/
def tryIntoW : Unit → Except Error WireRequest :=
  fun _ => .ok { path := "/_matrix/client/r0/sync", query := [], body := "" }

/-- A sample URI validator that accepts every URL. -/
def validateUriW : Url → Option String :=
  fun _ => none

/-- A sample transport that always succeeds. -/
def transportW : Url → WireRequest → Except String Unit :=
  fun _ _ => .ok ()

/-- A sample response decoder that always succeeds. -/
def decodeW : Unit → Except Error Unit :=
  fun _ => .ok ()

/-- A sample homeserver URL. -/
def hsW : Url := { origin := "https://example.com", path := "", query := [] }

/-- A sample stored session. -/
def sW : Session :=
  { access_token := "tok", device_id := "dev", user_id := "@alice:example.com" }

/-- Claim C1: for an endpoint whose metadata requires authentication, a
dispatch whose typed request converts successfully, made while the session
store is empty, returns the `AuthenticationRequired` error and invokes the
transport zero times. -/
theorem dispatch_empty_store_auth_required {Req TResp Resp : Type}
    (meta : EndpointMeta) (homeserver : Url)
    (tryInto : Req → Except Error WireRequest)
    (validateUri : Url → Option String)
    (transport : Url → WireRequest → Except String TResp)
    (decode : TResp → Except Error Resp)
    (req : Req) (w : WireRequest)
    (hmeta : meta.requires_authentication = true)
    (hreq : tryInto req = .ok w) :
    (request meta homeserver none tryInto validateUri transport decode req).result
        = .error Error.authenticationRequired
    ∧ (request meta homeserver none tryInto validateUri transport decode
        req).networkCalls = 0 := by
  simp [request, hreq, resolveUrl, hmeta]

/-- Claim C1 witness at concrete inputs. -/
theorem dispatch_empty_store_auth_required_w :
    (request ⟨true⟩ hsW none tryIntoW validateUriW transportW decodeW ()).result
        = .error Error.authenticationRequired
    ∧ (request ⟨true⟩ hsW none tryIntoW validateUriW transportW decodeW
        ()).networkCalls = 0 :=
  dispatch_empty_store_auth_required ⟨true⟩ hsW tryIntoW validateUriW
    transportW decodeW ()
    { path := "/_matrix/client/r0/sync", query := [], body := "" } rfl rfl

/-- Claim C2: for an endpoint requiring authentication dispatched with a
stored session, the URL resolved before sending carries a query pair named
exactly `access_token` whose value is the stored access token. -/
theorem dispatch_appends_access_token (homeserver : Url) (s : Session)
    (w : WireRequest) (u : Url)
    (h : resolveUrl true homeserver (some s) w = .ok u) :
    ("access_token", s.access_token) ∈ u.query := by
  simp only [resolveUrl, if_pos, Except.ok.injEq] at h
  rw [← h]
  simp

/-- Claim C2 witness at concrete inputs. -/
theorem dispatch_appends_access_token_w :
    ("access_token", sW.access_token) ∈
      (Url.mk "https://example.com" "/_matrix/client/r0/sync"
        [("access_token", "tok")]).query :=
  dispatch_appends_access_token hsW sW
    { path := "/_matrix/client/r0/sync", query := [], body := "" }
    (Url.mk "https://example.com" "/_matrix/client/r0/sync"
      [("access_token", "tok")]) rfl

/-- Claim C3: for an endpoint not requiring authentication, whatever the
session store holds, the resolved URL's query is exactly the wire request's
own query — no `access_token` pair is ever appended. -/
theorem dispatch_unauthenticated_no_token (homeserver : Url)
    (session : Option Session) (w : WireRequest) :
    resolveUrl false homeserver session w
      = .ok { origin := homeserver.origin, path := w.path, query := w.query } :=
  rfl

/-- Claim C4: each convenience operation, on dispatch success, stores
exactly the session built from the response's token, device id and user id
and returns that session; on dispatch failure it leaves the store heap
untouched and propagates the error unchanged. -/
theorem convenience_ops_store_session (w : World) (id : Nat)
    (r : LoginResponse) (g : RegisterResponse) (e : Error) :
    (log_in w id (.ok r)
        = (.ok ⟨r.access_token, r.device_id, r.user_id⟩,
            setStore w id (some ⟨r.access_token, r.device_id, r.user_id⟩))
      ∧ getStore (log_in w id (.ok r)).2 id
          = some ⟨r.access_token, r.device_id, r.user_id⟩
      ∧ log_in w id (.error e) = (.error e, w))
    ∧ (register_guest w id (.ok g)
        = (.ok ⟨g.access_token, g.device_id, g.user_id⟩,
            setStore w id (some ⟨g.access_token, g.device_id, g.user_id⟩))
      ∧ getStore (register_guest w id (.ok g)).2 id
          = some ⟨g.access_token, g.device_id, g.user_id⟩
      ∧ register_guest w id (.error e) = (.error e, w))
    ∧ (register_user w id (.ok g)
        = (.ok ⟨g.access_token, g.device_id, g.user_id⟩,
            setStore w id (some ⟨g.access_token, g.device_id, g.user_id⟩))
      ∧ getStore (register_user w id (.ok g)).2 id
          = some ⟨g.access_token, g.device_id, g.user_id⟩
      ∧ register_user w id (.error e) = (.error e, w)) := by
  refine ⟨⟨rfl, ?_, rfl⟩, ⟨rfl, ?_, rfl⟩, ⟨rfl, ?_, rfl⟩⟩ <;>
    simp [log_in, register_guest, register_user, getStore, setStore]

/-- Claim C5: against a scripted transport, the first sync request carries
the caller-supplied cursor, and every later request carries exactly the
`next_batch` of the previous response. -/
theorem sync_cursor_threading {F : Type} (filter : Option F)
    (set_presence : Bool) (script : Nat → Except Error SyncResponse)
    (since0 : Option String) (n : Nat) (req : SyncRequest F)
    (res : SyncResponse)
    (h : syncRequestAt filter set_presence script since0 (n + 1) = some req)
    (hres : script n = .ok res) :
    syncRequestAt filter set_presence script since0 0
        = some (syncRequest filter (syncSetPresence set_presence) since0)
    ∧ req.since = some res.next_batch := by
  refine ⟨rfl, ?_⟩
  unfold syncRequestAt at h
  cases hp : syncSinceAt script since0 n with
  | none =>
    rw [show syncSinceAt script since0 (n + 1) = none by
      simp [syncSinceAt, hp]] at h
    simp at h
  | some s =>
    rw [show syncSinceAt script since0 (n + 1) = some (some res.next_batch) by
      simp [syncSinceAt, hp, hres]] at h
    simp at h
    rw [← h]
    rfl

/-- Claim C5 witness: with responses t1, t2, t3 the issued requests carry
`since` = absent, then t1, then t2, then t3 — each cursor issued once. -/
theorem sync_cursor_threading_w :
    (syncRequestAt (none : Option String) true scriptT none 0
        = some (syncRequest none (syncSetPresence true) none)
      ∧ (syncRequest (none : Option String) none (some "t1")).since = some "t1")
    ∧ syncRequestAt (none : Option String) true scriptT none 1
        = some (syncRequest none none (some "t1"))
    ∧ syncRequestAt (none : Option String) true scriptT none 2
        = some (syncRequest none none (some "t2"))
    ∧ syncRequestAt (none : Option String) true scriptT none 3
        = some (syncRequest none none (some "t3")) :=
  ⟨sync_cursor_threading none true scriptT none 0
      (syncRequest none none (some "t1")) { next_batch := "t1" } rfl rfl,
    rfl, rfl, rfl⟩

/-- Claim C6: every request issued by the sync stream carries the presence
directive computed from the flag: `Some(Offline)` when presence publishing
is disabled, no directive when it is enabled. -/
theorem sync_presence_directive {F : Type} (filter : Option F)
    (set_presence : Bool) (script : Nat → Except Error SyncResponse)
    (since0 : Option String) (n : Nat) (req : SyncRequest F)
    (h : syncRequestAt filter set_presence script since0 n = some req) :
    req.set_presence = syncSetPresence set_presence
    ∧ (set_presence = false → req.set_presence = some SetPresence.offline)
    ∧ (set_presence = true → req.set_presence = none) := by
  unfold syncRequestAt at h
  cases hp : syncSinceAt script since0 n with
  | none => rw [hp] at h; simp at h
  | some s =>
    rw [hp] at h
    simp at h
    rw [← h]
    exact ⟨rfl, fun hb => by rw [hb]; rfl, fun hb => by rw [hb]; rfl⟩

/-- Claim C6 witness at concrete inputs, in both flag positions. -/
theorem sync_presence_directive_w :
    (syncRequest (none : Option String) (syncSetPresence false)
        (none : Option String)).set_presence = some SetPresence.offline
    ∧ (syncRequest (none : Option String) (syncSetPresence true)
        (none : Option String)).set_presence = none :=
  ⟨(sync_presence_directive none false scriptT none 0
      (syncRequest none (syncSetPresence false) none) rfl).2.1 rfl,
    (sync_presence_directive none true scriptT none 0
      (syncRequest none (syncSetPresence true) none) rfl).2.2 rfl⟩

/-- Claim C7: the unfold closure always offers a next step (the stream
never signals natural end-of-stream); after a successful response the
stream carries on with the new cursor, and a dispatch error is yielded as
the final item, after which the stream is over. -/
theorem sync_stream_unbounded {F : Type} (filter : Option F)
    (sp : Option SetPresence)
    (dispatch : SyncRequest F → Except Error SyncResponse)
    (script : Nat → Except Error SyncResponse) (since0 : Option String)
    (n : Nat) (s : Option String)
    (h : syncSinceAt script since0 n = some s) :
    (syncUnfoldStep filter sp dispatch s).isSome = true
    ∧ (∀ res, script n = .ok res →
        syncItemAt script since0 n = some (SyncItem.resp res)
        ∧ syncSinceAt script since0 (n + 1) = some (some res.next_batch))
    ∧ (∀ e, script n = .error e →
        syncItemAt script since0 n = some (SyncItem.err e)
        ∧ syncSinceAt script since0 (n + 1) = none) := by
  refine ⟨rfl, ?_, ?_⟩
  · intro res hres
    exact ⟨by simp [syncItemAt, h, hres], by simp [syncSinceAt, h, hres]⟩
  · intro e he
    exact ⟨by simp [syncItemAt, h, he], by simp [syncSinceAt, h, he]⟩

/-- Claim C7 witness: a concrete step is offered, a success yields an item
and a next cursor, an erroring script yields the error and then ends. -/
theorem sync_stream_unbounded_w :
    (syncUnfoldStep (none : Option String) none dispatchW none).isSome = true
    ∧ syncItemAt scriptT none 0 = some (SyncItem.resp { next_batch := "t1" })
    ∧ syncSinceAt scriptT none 1 = some (some "t1")
    ∧ syncItemAt scriptE none 0
        = some (SyncItem.err (Error.transport "connection refused"))
    ∧ syncSinceAt scriptE none 1 = none :=
  ⟨(sync_stream_unbounded none none dispatchW scriptT none 0 none rfl).1,
    ((sync_stream_unbounded none none dispatchW scriptT none 0 none rfl).2.1
      { next_batch := "t1" } rfl).1,
    ((sync_stream_unbounded none none dispatchW scriptT none 0 none rfl).2.1
      { next_batch := "t1" } rfl).2,
    ((sync_stream_unbounded none none dispatchW scriptE none 0 none rfl).2.2
      (Error.transport "connection refused") rfl).1,
    ((sync_stream_unbounded none none dispatchW scriptE none 0 none rfl).2.2
      (Error.transport "connection refused") rfl).2⟩

/-- Claim C8: dispatch never writes the session store — the store heap
after any `Client::request` call is the heap before it — and the transport
is invoked at most once. -/
theorem dispatch_no_store_write {Req TResp Resp : Type} (world : World)
    (c : Client) (meta : EndpointMeta)
    (tryInto : Req → Except Error WireRequest)
    (validateUri : Url → Option String)
    (transport : Url → WireRequest → Except String TResp)
    (decode : TResp → Except Error Resp) (req : Req) :
    (requestW world c meta tryInto validateUri transport decode req).2 = world
    ∧ (requestW world c meta tryInto validateUri transport decode
        req).1.networkCalls ≤ 1 := by
  refine ⟨rfl, ?_⟩
  unfold requestW request
  repeat' split
  all_goals simp

/-- Claim C9: cloning a `Client` shares the one session store rather than
copying it: the clone is the same handle, a store write through the clone's
slot is observed through the original, and logging in through the clone is
observed through the original's `session()`. -/
theorem clone_shares_session_store (c : Client) (w : World)
    (r : LoginResponse) (v : Option Session) :
    Client.clone c = c
    ∧ Client.session (setStore w (Client.clone c).storeId v) c = v
    ∧ Client.session (log_in w (Client.clone c).storeId (.ok r)).2 c
        = some ⟨r.access_token, r.device_id, r.user_id⟩ := by
  refine ⟨rfl, ?_, ?_⟩ <;>
    simp [Client.clone, Client.session, getStore, setStore, log_in]

/-- Claim C10: every request issued by the sync stream carries the
caller-supplied filter unchanged and leaves `full_state` and `timeout`
unset. -/
theorem sync_request_static_fields {F : Type} (filter : Option F)
    (set_presence : Bool) (script : Nat → Except Error SyncResponse)
    (since0 : Option String) (n : Nat) (req : SyncRequest F)
    (h : syncRequestAt filter set_presence script since0 n = some req) :
    req.filter = filter ∧ req.full_state = none ∧ req.timeout = none := by
  unfold syncRequestAt at h
  cases hp : syncSinceAt script since0 n with
  | none => rw [hp] at h; simp at h
  | some s =>
    rw [hp] at h
    simp at h
    rw [← h]
    exact ⟨rfl, rfl, rfl⟩

/-- Claim C10 witness at concrete inputs. -/
theorem sync_request_static_fields_w :
    (syncRequest (some "f") (syncSetPresence true)
        (none : Option String)).filter = some "f"
    ∧ (syncRequest (some "f") (syncSetPresence true)
        (none : Option String)).full_state = none
    ∧ (syncRequest (some "f") (syncSetPresence true)
        (none : Option String)).timeout = none :=
  sync_request_static_fields (some "f") true scriptT none 0
    (syncRequest (some "f") (syncSetPresence true) none) rfl
